import Mathlib

/-!
Shallow embedding of `src/adapter.rs` of the rt-esp-at-nal crate: the WIFI
`Adapter`, its `join` command sequence and the URC message folding loop.
The external collaborators (the atat client, the command payloads of
`commands.rs` and the URC enum of `urc.rs`) are modelled as explicit data;
all adapter logic below is translated line by line from `adapter.rs`.
-/

/-- Opaque model of `atat::Error`: the adapter never inspects the transport
error, it only wraps and propagates it, so a bare code suffices. -/
structure AtError where
  code : Nat
deriving DecidableEq

/-- Model of the `nb` crate error wrapper used by `AtatClient::send`:
either a real transport error or a would-block outcome. -/
inductive NbError where
  | Other (e : AtError)
  | WouldBlock
deriving DecidableEq

deriving instance DecidableEq for Except

/-- Outcome of one `send` call of the atat client. -/
abbrev SendResult := Except NbError Unit

/-- The two outbound command payloads issued by the adapter:
`WifiModeCommand::station_mode()` and
`AccessPointConnectCommand::new(ssid, key)` (their encodings live in the
external command layer and are irrelevant to the adapter logic). -/
inductive AtCommand where
  | WifiModeStation
  | AccessPointConnect (ssid key : String)
deriving DecidableEq

/-- The URC message kinds consumed by `Adapter::handle_single_urc`; the five
variants are exactly those matched in `adapter.rs`. -/
inductive URCMessages where
  | Ready
  | WifiConnected
  | WifiDisconnected
  | ReceivedIP
  | Unknown
deriving DecidableEq

/-- Scripted model of the external `AtatClient`: `sendResults` prescribes the
outcomes of successive `send` calls (an exhausted script defaults to
success), `urcQueue` holds the buffered URC messages in arrival order, and
`sentCommands` logs every command passed to `send`. -/
structure Client where
  sendResults : List SendResult
  urcQueue : List URCMessages
  sentCommands : List AtCommand
deriving DecidableEq

/-- `AtatClient::send`: consumes the next prescribed outcome and logs the
command that went through the channel. -/
def Client.send (c : Client) (cmd : AtCommand) : SendResult × Client :=
  match c.sendResults with
  | [] => (Except.ok (), { c with sentCommands := c.sentCommands ++ [cmd] })
  | r :: rs => (r, { c with sendResults := rs, sentCommands := c.sentCommands ++ [cmd] })

/-- `AtatClient::check_urc::<URCMessages>()`: pops the next buffered URC
message, if any; never blocks. -/
def Client.check_urc (c : Client) : Option URCMessages × Client :=
  match c.urcQueue with
  | [] => (none, c)
  | u :: us => (some u, { c with urcQueue := us })

/-- `JoinError` from `adapter.rs` (the source spells the SSID variant
`InvalidSSDLength`). -/
inductive JoinError where
  | ConfigurationStoreError (e : AtError)
  | ModeError (e : AtError)
  | ConnectError (e : AtError)
  | InvalidSSDLength
  | InvalidPasswordLength
  | UnexpectedWouldBlock
deriving DecidableEq

/-- `JoinState` from `adapter.rs`: snapshot of the connection flags. -/
structure JoinState where
  connected : Bool
  ip_assigned : Bool
deriving DecidableEq

/-- `Adapter` from `adapter.rs`: the atat client plus the two status flags. -/
structure Adapter where
  client : Client
  joined : Bool
  ip_assigned : Bool
deriving DecidableEq

/-- `Adapter::new`: fresh adapter, not joined, no IP. -/
def Adapter.new (client : Client) : Adapter :=
  { client := client, joined := false, ip_assigned := false }

/-- `Adapter::handle_single_urc`: checks a single pending URC message and
folds it into the flags; returns `false` iff no URC message was pending. -/
def Adapter.handle_single_urc (a : Adapter) : Bool × Adapter :=
  match a.client.check_urc with
  | (some URCMessages.WifiDisconnected, c) =>
      (true, { a with client := c, joined := false, ip_assigned := false })
  | (some URCMessages.ReceivedIP, c) => (true, { a with client := c, ip_assigned := true })
  | (some URCMessages.WifiConnected, c) => (true, { a with client := c, joined := true })
  | (some URCMessages.Ready, c) => (true, { a with client := c })
  | (some URCMessages.Unknown, c) => (true, { a with client := c })
  | (none, c) => (false, { a with client := c })

/-- `Adapter::process_urc_messages`: `while self.handle_single_urc() {}`,
draining every pending URC message. -/
def Adapter.process_urc_messages (a : Adapter) : Adapter :=
  match h : a.handle_single_urc with
  | (true, a2) => a2.process_urc_messages
  | (false, a2) => a2
termination_by a.client.urcQueue.length
decreasing_by
  rcases hq : a.client.urcQueue with _ | ⟨u, us⟩ <;>
    [skip; cases u] <;>
    simp [Adapter.handle_single_urc, Client.check_urc, hq] at h <;>
    simp [← h, hq]

/-- Poll count of one `process_urc_messages` call: the number of
`handle_single_urc` invocations the drain loop performs. -/
def Adapter.drain_steps (a : Adapter) : Nat :=
  match h : a.handle_single_urc with
  | (true, a2) => a2.drain_steps + 1
  | (false, _) => 1
termination_by a.client.urcQueue.length
decreasing_by
  rcases hq : a.client.urcQueue with _ | ⟨u, us⟩ <;>
    [skip; cases u] <;>
    simp [Adapter.handle_single_urc, Client.check_urc, hq] at h <;>
    simp [← h, hq]

/-- `Adapter::set_station_mode`: sends the station-mode command and maps a
transport error to `ModeError`, would-block to `UnexpectedWouldBlock`. -/
def Adapter.set_station_mode (a : Adapter) : Except JoinError Unit × Adapter :=
  match a.client.send AtCommand.WifiModeStation with
  | (Except.error (NbError.Other other), c) =>
      (Except.error (JoinError.ModeError other), { a with client := c })
  | (Except.error NbError.WouldBlock, c) =>
      (Except.error JoinError.UnexpectedWouldBlock, { a with client := c })
  | (Except.ok _, c) => (Except.ok (), { a with client := c })

/-- `Adapter::connect_access_point`: validates the SSID and key byte lengths
(`str::len` counts UTF-8 bytes), then sends the connect command, mapping a
transport error to `ConnectError`, would-block to `UnexpectedWouldBlock`. -/
def Adapter.connect_access_point (a : Adapter) (ssid key : String) :
    Except JoinError Unit × Adapter :=
  if ssid.utf8ByteSize > 32 then (Except.error JoinError.InvalidSSDLength, a)
  else if key.utf8ByteSize > 63 then (Except.error JoinError.InvalidPasswordLength, a)
  else
    match a.client.send (AtCommand.AccessPointConnect ssid key) with
    | (Except.ok _, c) => (Except.ok (), { a with client := c })
    | (Except.error (NbError.Other other), c) =>
        (Except.error (JoinError.ConnectError other), { a with client := c })
    | (Except.error NbError.WouldBlock, c) =>
        (Except.error JoinError.UnexpectedWouldBlock, { a with client := c })

/-- `Adapter::join`: station mode, then connect, then drain the URC queue,
then snapshot the flags; the `?` operator short-circuits on the first
failing step. -/
def Adapter.join (a : Adapter) (ssid key : String) :
    Except JoinError JoinState × Adapter :=
  match a.set_station_mode with
  | (Except.error e, a1) => (Except.error e, a1)
  | (Except.ok _, a1) =>
    match a1.connect_access_point ssid key with
    | (Except.error e, a2) => (Except.error e, a2)
    | (Except.ok _, a2) =>
      let a3 := a2.process_urc_messages
      (Except.ok { connected := a3.joined, ip_assigned := a3.ip_assigned }, a3)

/-- Modelled from the spec: the folding-rule table of §4.2 — the effect of a
single URC message on the pair (joined, ip_assigned). Used to state the
refinement between `join`/`process_urc_messages` and the spec table. -/
def foldStep : Bool × Bool → URCMessages → Bool × Bool
  | _, URCMessages.WifiDisconnected => (false, false)
  | (j, _), URCMessages.ReceivedIP => (j, true)
  | (_, i), URCMessages.WifiConnected => (true, i)
  | s, URCMessages.Ready => s
  | s, URCMessages.Unknown => s

theorem handle_single_urc_nil (sr : List SendResult) (sc : List AtCommand) (j i : Bool) :
    Adapter.handle_single_urc ⟨⟨sr, [], sc⟩, j, i⟩ = (false, ⟨⟨sr, [], sc⟩, j, i⟩) := rfl

theorem handle_single_urc_cons (sr : List SendResult) (sc : List AtCommand)
    (u : URCMessages) (us : List URCMessages) (j i : Bool) :
    Adapter.handle_single_urc ⟨⟨sr, u :: us, sc⟩, j, i⟩ =
      (true, ⟨⟨sr, us, sc⟩, (foldStep (j, i) u).1, (foldStep (j, i) u).2⟩) := by
  cases u <;> rfl

theorem process_urc_messages_foldl (q : List URCMessages) :
    ∀ (sr : List SendResult) (sc : List AtCommand) (j i : Bool),
    Adapter.process_urc_messages ⟨⟨sr, q, sc⟩, j, i⟩ =
      ⟨⟨sr, [], sc⟩, (List.foldl foldStep (j, i) q).1, (List.foldl foldStep (j, i) q).2⟩ := by
  induction q with
  | nil =>
      intro sr sc j i
      unfold Adapter.process_urc_messages
      simp [handle_single_urc_nil]
  | cons u us ih =>
      intro sr sc j i
      unfold Adapter.process_urc_messages
      split
      next a2 h =>
        rw [handle_single_urc_cons] at h
        simp only [Prod.mk.injEq, true_and] at h
        subst h
        simpa [List.foldl_cons, Prod.mk.eta] using
          ih sr sc (foldStep (j, i) u).1 (foldStep (j, i) u).2
      next a2 h =>
        rw [handle_single_urc_cons] at h
        simp at h

theorem drain_steps_eq_length (q : List URCMessages) :
    ∀ (sr : List SendResult) (sc : List AtCommand) (j i : Bool),
    Adapter.drain_steps ⟨⟨sr, q, sc⟩, j, i⟩ = q.length + 1 := by
  induction q with
  | nil =>
      intro sr sc j i
      unfold Adapter.drain_steps
      simp [handle_single_urc_nil]
  | cons u us ih =>
      intro sr sc j i
      unfold Adapter.drain_steps
      split
      next a2 h =>
        rw [handle_single_urc_cons] at h
        simp only [Prod.mk.injEq, true_and] at h
        subst h
        simp [ih sr sc (foldStep (j, i) u).1 (foldStep (j, i) u).2]
      next a2 h =>
        rw [handle_single_urc_cons] at h
        simp at h

theorem process_urc_messages_spec (a : Adapter) :
    a.process_urc_messages =
      ⟨⟨a.client.sendResults, [], a.client.sentCommands⟩,
        (List.foldl foldStep (a.joined, a.ip_assigned) a.client.urcQueue).1,
        (List.foldl foldStep (a.joined, a.ip_assigned) a.client.urcQueue).2⟩ := by
  obtain ⟨⟨sr, q, sc⟩, j, i⟩ := a
  exact process_urc_messages_foldl q sr sc j i

theorem set_station_mode_default (q : List URCMessages) (sc : List AtCommand) (j i : Bool) :
    Adapter.set_station_mode ⟨⟨[], q, sc⟩, j, i⟩ =
      (Except.ok (), ⟨⟨[], q, sc ++ [AtCommand.WifiModeStation]⟩, j, i⟩) := rfl

theorem set_station_mode_ok (rs : List SendResult) (q : List URCMessages)
    (sc : List AtCommand) (j i : Bool) :
    Adapter.set_station_mode ⟨⟨Except.ok () :: rs, q, sc⟩, j, i⟩ =
      (Except.ok (), ⟨⟨rs, q, sc ++ [AtCommand.WifiModeStation]⟩, j, i⟩) := rfl

theorem set_station_mode_error (e : AtError) (rs : List SendResult)
    (q : List URCMessages) (sc : List AtCommand) (j i : Bool) :
    Adapter.set_station_mode ⟨⟨Except.error (NbError.Other e) :: rs, q, sc⟩, j, i⟩ =
      (Except.error (JoinError.ModeError e),
        ⟨⟨rs, q, sc ++ [AtCommand.WifiModeStation]⟩, j, i⟩) := rfl

theorem set_station_mode_wb (rs : List SendResult) (q : List URCMessages)
    (sc : List AtCommand) (j i : Bool) :
    Adapter.set_station_mode ⟨⟨Except.error NbError.WouldBlock :: rs, q, sc⟩, j, i⟩ =
      (Except.error JoinError.UnexpectedWouldBlock,
        ⟨⟨rs, q, sc ++ [AtCommand.WifiModeStation]⟩, j, i⟩) := rfl

theorem set_station_mode_spec (a : Adapter) :
    ((a.set_station_mode).2).joined = a.joined ∧
    ((a.set_station_mode).2).ip_assigned = a.ip_assigned ∧
    ((a.set_station_mode).2).client.urcQueue = a.client.urcQueue ∧
    ((a.set_station_mode).2).client.sentCommands
      = a.client.sentCommands ++ [AtCommand.WifiModeStation] := by
  obtain ⟨⟨sr, q, sc⟩, j, i⟩ := a
  rcases sr with _ | ⟨r, rs⟩
  · simp [Adapter.set_station_mode, Client.send]
  · rcases r with e | u
    · rcases e with ae | _ <;> simp [Adapter.set_station_mode, Client.send]
    · simp [Adapter.set_station_mode, Client.send]

theorem connect_access_point_flags (a : Adapter) (ssid key : String) :
    ((a.connect_access_point ssid key).2).joined = a.joined ∧
    ((a.connect_access_point ssid key).2).ip_assigned = a.ip_assigned ∧
    ((a.connect_access_point ssid key).2).client.urcQueue = a.client.urcQueue := by
  obtain ⟨⟨sr, q, sc⟩, j, i⟩ := a
  by_cases h1 : ssid.utf8ByteSize > 32
  · simp [Adapter.connect_access_point, h1]
  · by_cases h2 : key.utf8ByteSize > 63
    · simp [Adapter.connect_access_point, h1, h2]
    · rcases sr with _ | ⟨r, rs⟩
      · simp [Adapter.connect_access_point, h1, h2, Client.send]
      · rcases r with e | u
        · rcases e with ae | _ <;>
            simp [Adapter.connect_access_point, h1, h2, Client.send]
        · simp [Adapter.connect_access_point, h1, h2, Client.send]

/-- Claim C1 counterexample: with a client whose one scripted send succeeds and
a 33-byte SSID, `join` does return the invalid-SSID-length error, but the
set-station-mode command HAS been sent through the command channel, because
validation runs inside `connect_access_point`, after `set_station_mode`;
moreover, with a client whose scripted send fails, `join` on the same over-long
SSID returns `ModeError`, not the invalid-SSID-length error. -/
theorem c1_counterexample :
    (String.mk (List.replicate 33 'a')).utf8ByteSize > 32 ∧
    ((Adapter.new ⟨[Except.ok ()], [], []⟩).join (String.mk (List.replicate 33 'a')) "pw").1
      = Except.error JoinError.InvalidSSDLength ∧
    ((Adapter.new ⟨[Except.ok ()], [], []⟩).join
        (String.mk (List.replicate 33 'a')) "pw").2.client.sentCommands
      = [AtCommand.WifiModeStation] ∧
    ((Adapter.new ⟨[Except.error (NbError.Other ⟨7⟩)], [], []⟩).join
        (String.mk (List.replicate 33 'a')) "pw").1
      = Except.error (JoinError.ModeError ⟨7⟩) := by
  refine ⟨by decide, by decide, by decide, by decide⟩

/-- Claim C1 (amended): provided the set-station-mode step succeeds, `join`
with an SSID longer than 32 bytes returns the invalid-SSID-length error and
`join` with an SSID of at most 32 bytes and a key longer than 63 bytes returns
`InvalidPasswordLength`; in both cases the connect-access-point command is
never sent — but the set-station-mode command has already been issued before
validation, so the command channel is not untouched. -/
theorem c1_validation (a : Adapter) (ssid key : String)
    (hmode : (a.set_station_mode).1 = Except.ok ()) :
    (ssid.utf8ByteSize > 32 →
      (a.join ssid key).1 = Except.error JoinError.InvalidSSDLength ∧
      (a.join ssid key).2.client.sentCommands
        = a.client.sentCommands ++ [AtCommand.WifiModeStation]) ∧
    (ssid.utf8ByteSize ≤ 32 → key.utf8ByteSize > 63 →
      (a.join ssid key).1 = Except.error JoinError.InvalidPasswordLength ∧
      (a.join ssid key).2.client.sentCommands
        = a.client.sentCommands ++ [AtCommand.WifiModeStation]) := by
  rcases hm : a.set_station_mode with ⟨r1, a1⟩
  rw [hm] at hmode
  simp only at hmode
  subst hmode
  have hsent := (set_station_mode_spec a).2.2.2
  rw [hm] at hsent
  have hsent2 : a1.client.sentCommands
      = a.client.sentCommands ++ [AtCommand.WifiModeStation] := hsent
  constructor
  · intro h32
    simp [Adapter.join, hm, Adapter.connect_access_point, h32, hsent2]
  · intro h32 h63
    simp [Adapter.join, hm, Adapter.connect_access_point, Nat.not_lt.mpr h32, h63, hsent2]

/-- Claim C1 witness: the amended statement applied to a fresh client with one
successful scripted send, a 33-byte SSID and a 64-byte key. -/
theorem c1_validation_witness :
    ((Adapter.new ⟨[Except.ok ()], [], []⟩).set_station_mode).1 = Except.ok () ∧
    (((String.mk (List.replicate 33 'a')).utf8ByteSize > 32 →
      ((Adapter.new ⟨[Except.ok ()], [], []⟩).join (String.mk (List.replicate 33 'a'))
          (String.mk (List.replicate 64 'b'))).1 = Except.error JoinError.InvalidSSDLength ∧
      ((Adapter.new ⟨[Except.ok ()], [], []⟩).join (String.mk (List.replicate 33 'a'))
          (String.mk (List.replicate 64 'b'))).2.client.sentCommands
        = (Adapter.new ⟨[Except.ok ()], [], []⟩).client.sentCommands
            ++ [AtCommand.WifiModeStation]) ∧
    ((String.mk (List.replicate 33 'a')).utf8ByteSize ≤ 32 →
      (String.mk (List.replicate 64 'b')).utf8ByteSize > 63 →
      ((Adapter.new ⟨[Except.ok ()], [], []⟩).join (String.mk (List.replicate 33 'a'))
          (String.mk (List.replicate 64 'b'))).1 = Except.error JoinError.InvalidPasswordLength ∧
      ((Adapter.new ⟨[Except.ok ()], [], []⟩).join (String.mk (List.replicate 33 'a'))
          (String.mk (List.replicate 64 'b'))).2.client.sentCommands
        = (Adapter.new ⟨[Except.ok ()], [], []⟩).client.sentCommands
            ++ [AtCommand.WifiModeStation])) :=
  ⟨by decide, c1_validation _ _ _ (by decide)⟩

/-- Claim C2: if the set-station-mode send fails with a transport error `e`,
`join` returns `ModeError e` wrapping that very error, and the
connect-access-point command is never sent: the only command that went through
the channel is the station-mode one. -/
theorem c2_mode_error_short_circuit (a : Adapter) (ssid key : String)
    (e : AtError) (rs : List SendResult)
    (h : a.client.sendResults = Except.error (NbError.Other e) :: rs) :
    (a.join ssid key).1 = Except.error (JoinError.ModeError e) ∧
    (a.join ssid key).2.client.sentCommands
      = a.client.sentCommands ++ [AtCommand.WifiModeStation] := by
  obtain ⟨⟨sr, q, sc⟩, j, i⟩ := a
  simp only at h
  subst h
  simp [Adapter.join, set_station_mode_error]

/-- Claim C2 witness: the statement applied to a fresh client whose single
scripted send fails with transport error code 5. -/
theorem c2_mode_error_witness :
    (Adapter.new ⟨[Except.error (NbError.Other ⟨5⟩)], [], []⟩).client.sendResults
      = Except.error (NbError.Other ⟨5⟩) :: [] ∧
    (((Adapter.new ⟨[Except.error (NbError.Other ⟨5⟩)], [], []⟩).join "net" "pw").1
      = Except.error (JoinError.ModeError ⟨5⟩) ∧
    ((Adapter.new ⟨[Except.error (NbError.Other ⟨5⟩)], [], []⟩).join "net" "pw").2.client.sentCommands
      = (Adapter.new ⟨[Except.error (NbError.Other ⟨5⟩)], [], []⟩).client.sentCommands
          ++ [AtCommand.WifiModeStation]) :=
  ⟨by decide, c2_mode_error_short_circuit _ "net" "pw" ⟨5⟩ [] (by decide)⟩

/-- Claim C3: folding a single URC message obeys exactly the table, for every
prior state: `WifiDisconnected` clears both flags, `WifiConnected` sets
`joined` leaving `ip_assigned` unchanged, `ReceivedIP` sets `ip_assigned`
leaving `joined` unchanged, and `Ready` and `Unknown` leave both unchanged. -/
theorem c3_fold_table (sr : List SendResult) (sc : List AtCommand)
    (us : List URCMessages) (j i : Bool) :
    Adapter.handle_single_urc ⟨⟨sr, URCMessages.WifiDisconnected :: us, sc⟩, j, i⟩
      = (true, ⟨⟨sr, us, sc⟩, false, false⟩) ∧
    Adapter.handle_single_urc ⟨⟨sr, URCMessages.WifiConnected :: us, sc⟩, j, i⟩
      = (true, ⟨⟨sr, us, sc⟩, true, i⟩) ∧
    Adapter.handle_single_urc ⟨⟨sr, URCMessages.ReceivedIP :: us, sc⟩, j, i⟩
      = (true, ⟨⟨sr, us, sc⟩, j, true⟩) ∧
    Adapter.handle_single_urc ⟨⟨sr, URCMessages.Ready :: us, sc⟩, j, i⟩
      = (true, ⟨⟨sr, us, sc⟩, j, i⟩) ∧
    Adapter.handle_single_urc ⟨⟨sr, URCMessages.Unknown :: us, sc⟩, j, i⟩
      = (true, ⟨⟨sr, us, sc⟩, j, i⟩) :=
  ⟨rfl, rfl, rfl, rfl, rfl⟩

/-- Claim C4: whenever `join` returns an error, the `joined` and `ip_assigned`
flags equal their values before the call: the URC drain runs only after both
commands succeeded, so no flag mutation happens on any failure path. -/
theorem c4_error_preserves_flags (a : Adapter) (ssid key : String) (e : JoinError)
    (h : (a.join ssid key).1 = Except.error e) :
    (a.join ssid key).2.joined = a.joined ∧
    (a.join ssid key).2.ip_assigned = a.ip_assigned := by
  rcases hm : a.set_station_mode with ⟨r1, a1⟩
  have hm1 := (set_station_mode_spec a).1
  have hm2 := (set_station_mode_spec a).2.1
  rw [hm] at hm1 hm2
  have hm1b : a1.joined = a.joined := hm1
  have hm2b : a1.ip_assigned = a.ip_assigned := hm2
  rcases r1 with e1 | u1
  · simp [Adapter.join, hm, hm1b, hm2b]
  · rcases hc : a1.connect_access_point ssid key with ⟨r2, a2⟩
    have hc1 := (connect_access_point_flags a1 ssid key).1
    have hc2 := (connect_access_point_flags a1 ssid key).2.1
    rw [hc] at hc1 hc2
    have hc1b : a2.joined = a1.joined := hc1
    have hc2b : a2.ip_assigned = a1.ip_assigned := hc2
    rcases r2 with e2 | u2
    · simp [Adapter.join, hm, hc, hc1b, hc2b, hm1b, hm2b]
    · simp [Adapter.join, hm, hc] at h

/-- Claim C4 witness: the statement applied to an adapter whose station-mode
send fails with transport error code 3, on a join that therefore errors. -/
theorem c4_error_preserves_flags_witness :
    ((Adapter.new ⟨[Except.error (NbError.Other ⟨3⟩)], [], []⟩).join "net" "pw").1
      = Except.error (JoinError.ModeError ⟨3⟩) ∧
    (((Adapter.new ⟨[Except.error (NbError.Other ⟨3⟩)], [], []⟩).join "net" "pw").2.joined
      = (Adapter.new ⟨[Except.error (NbError.Other ⟨3⟩)], [], []⟩).joined ∧
    ((Adapter.new ⟨[Except.error (NbError.Other ⟨3⟩)], [], []⟩).join "net" "pw").2.ip_assigned
      = (Adapter.new ⟨[Except.error (NbError.Other ⟨3⟩)], [], []⟩).ip_assigned) :=
  ⟨by decide, c4_error_preserves_flags _ "net" "pw" (JoinError.ModeError ⟨3⟩) (by decide)⟩

/-- Claim C5: a drain step that processes `WifiDisconnected` leaves both flags
false in that same step, and a whole drain whose last processed message is
`WifiDisconnected` ends with both flags false — so `ip_assigned = true` with
`joined = false` is never observable across such a drain boundary. -/
theorem c5_disconnect_clears_both (sr : List SendResult) (sc : List AtCommand)
    (q us : List URCMessages) (j i : Bool) :
    ((Adapter.handle_single_urc ⟨⟨sr, URCMessages.WifiDisconnected :: us, sc⟩, j, i⟩).2.joined
        = false ∧
      (Adapter.handle_single_urc ⟨⟨sr, URCMessages.WifiDisconnected :: us, sc⟩, j, i⟩).2.ip_assigned
        = false) ∧
    ((Adapter.process_urc_messages ⟨⟨sr, q ++ [URCMessages.WifiDisconnected], sc⟩, j, i⟩).joined
        = false ∧
      (Adapter.process_urc_messages ⟨⟨sr, q ++ [URCMessages.WifiDisconnected], sc⟩, j, i⟩).ip_assigned
        = false ∧
      ¬ ((Adapter.process_urc_messages
            ⟨⟨sr, q ++ [URCMessages.WifiDisconnected], sc⟩, j, i⟩).ip_assigned = true ∧
         (Adapter.process_urc_messages
            ⟨⟨sr, q ++ [URCMessages.WifiDisconnected], sc⟩, j, i⟩).joined = false)) := by
  refine ⟨⟨rfl, rfl⟩, ?_⟩
  rw [process_urc_messages_foldl]
  simp [List.foldl_append, foldStep]

/-- Claim C6: folding is order-sensitive and idempotent: for every initial
state, draining `[WifiConnected, ReceivedIP]` yields flags (true, true),
draining `[WifiConnected, WifiDisconnected]` yields (false, false), and
draining `[ReceivedIP, ReceivedIP]` yields the same adapter as draining
`[ReceivedIP]` once. -/
theorem c6_order_and_idempotence (sr : List SendResult) (sc : List AtCommand) (j i : Bool) :
    Adapter.process_urc_messages
        ⟨⟨sr, [URCMessages.WifiConnected, URCMessages.ReceivedIP], sc⟩, j, i⟩
      = ⟨⟨sr, [], sc⟩, true, true⟩ ∧
    Adapter.process_urc_messages
        ⟨⟨sr, [URCMessages.WifiConnected, URCMessages.WifiDisconnected], sc⟩, j, i⟩
      = ⟨⟨sr, [], sc⟩, false, false⟩ ∧
    Adapter.process_urc_messages
        ⟨⟨sr, [URCMessages.ReceivedIP, URCMessages.ReceivedIP], sc⟩, j, i⟩
      = Adapter.process_urc_messages ⟨⟨sr, [URCMessages.ReceivedIP], sc⟩, j, i⟩ := by
  refine ⟨?_, ?_, ?_⟩ <;> simp [process_urc_messages_foldl, foldStep]

/-- Claim C7: a newly constructed adapter has joined = false and
ip_assigned = false, and if every scripted send succeeds, the URC queue is
empty and the SSID/key lengths are valid, `join` on the fresh adapter returns
the snapshot with connected = false and ip_assigned = false. -/
theorem c7_fresh_join (c : Client) (ssid key : String)
    (hq : c.urcQueue = [])
    (hok : ∀ r ∈ c.sendResults, r = Except.ok ())
    (hs : ssid.utf8ByteSize ≤ 32) (hk : key.utf8ByteSize ≤ 63) :
    (Adapter.new c).joined = false ∧ (Adapter.new c).ip_assigned = false ∧
    ((Adapter.new c).join ssid key).1 = Except.ok ⟨false, false⟩ := by
  refine ⟨rfl, rfl, ?_⟩
  obtain ⟨sr, q, sc⟩ := c
  simp only at hq hok
  subst hq
  have h32 : ¬ ssid.utf8ByteSize > 32 := Nat.not_lt.mpr hs
  have h63 : ¬ key.utf8ByteSize > 63 := Nat.not_lt.mpr hk
  rcases sr with _ | ⟨r, rs⟩
  · simp [Adapter.join, Adapter.new, set_station_mode_default,
      Adapter.connect_access_point, Client.send, h32, h63, process_urc_messages_spec]
  · have hr : r = Except.ok () := hok r (by simp)
    subst hr
    rcases rs with _ | ⟨r2, rs2⟩
    · simp [Adapter.join, Adapter.new, set_station_mode_ok,
        Adapter.connect_access_point, Client.send, h32, h63, process_urc_messages_spec]
    · have hr2 : r2 = Except.ok () := hok r2 (by simp)
      subst hr2
      simp [Adapter.join, Adapter.new, set_station_mode_ok,
        Adapter.connect_access_point, Client.send, h32, h63, process_urc_messages_spec]

/-- Claim C7 witness: the statement applied to the empty scripted client (all
sends succeed by default, nothing queued) with a short SSID and key. -/
theorem c7_fresh_join_witness :
    (⟨[], [], []⟩ : Client).urcQueue = [] ∧
    (∀ r ∈ (⟨[], [], []⟩ : Client).sendResults, r = Except.ok ()) ∧
    "net".utf8ByteSize ≤ 32 ∧ "pw".utf8ByteSize ≤ 63 ∧
    ((Adapter.new ⟨[], [], []⟩).joined = false ∧
      (Adapter.new ⟨[], [], []⟩).ip_assigned = false ∧
      ((Adapter.new ⟨[], [], []⟩).join "net" "pw").1 = Except.ok ⟨false, false⟩) :=
  ⟨rfl, by simp, by decide, by decide,
    c7_fresh_join ⟨[], [], []⟩ "net" "pw" rfl (by simp) (by decide) (by decide)⟩

/-- Claim C8: the drain loop polls the decoder once per buffered message plus
one final empty poll — `drain_steps` equals queue length + 1 — it leaves the
queue empty, and with zero queued messages `process_urc_messages` is a no-op
returning the adapter unchanged. -/
theorem c8_drain_terminates (sr : List SendResult) (sc : List AtCommand)
    (q : List URCMessages) (j i : Bool) :
    Adapter.drain_steps ⟨⟨sr, q, sc⟩, j, i⟩ = q.length + 1 ∧
    (Adapter.process_urc_messages ⟨⟨sr, q, sc⟩, j, i⟩).client.urcQueue = [] ∧
    Adapter.process_urc_messages ⟨⟨sr, [], sc⟩, j, i⟩ = ⟨⟨sr, [], sc⟩, j, i⟩ := by
  refine ⟨drain_steps_eq_length q sr sc j i, ?_, ?_⟩ <;>
    simp [process_urc_messages_foldl]

/-- Claim C9: for every valid-length SSID and key, a would-block outcome from
either the set-station-mode send or the connect-access-point send makes `join`
return exactly `UnexpectedWouldBlock`. -/
theorem c9_would_block (rest : List SendResult) (q : List URCMessages)
    (sc : List AtCommand) (j i : Bool) (ssid key : String)
    (hs : ssid.utf8ByteSize ≤ 32) (hk : key.utf8ByteSize ≤ 63) :
    (Adapter.join ⟨⟨Except.error NbError.WouldBlock :: rest, q, sc⟩, j, i⟩ ssid key).1
      = Except.error JoinError.UnexpectedWouldBlock ∧
    (Adapter.join ⟨⟨Except.ok () :: Except.error NbError.WouldBlock :: rest, q, sc⟩, j, i⟩
        ssid key).1
      = Except.error JoinError.UnexpectedWouldBlock := by
  have h32 : ¬ ssid.utf8ByteSize > 32 := Nat.not_lt.mpr hs
  have h63 : ¬ key.utf8ByteSize > 63 := Nat.not_lt.mpr hk
  constructor
  · simp [Adapter.join, set_station_mode_wb]
  · simp [Adapter.join, set_station_mode_ok, Adapter.connect_access_point,
      Client.send, h32, h63]

/-- Claim C9 witness: the statement applied to concrete clients whose first,
respectively second, scripted send would-blocks, with a short SSID and key. -/
theorem c9_would_block_witness :
    "net".utf8ByteSize ≤ 32 ∧ "pw".utf8ByteSize ≤ 63 ∧
    ((Adapter.join ⟨⟨Except.error NbError.WouldBlock :: [], [], []⟩, false, false⟩ "net" "pw").1
      = Except.error JoinError.UnexpectedWouldBlock ∧
    (Adapter.join ⟨⟨Except.ok () :: Except.error NbError.WouldBlock :: [], [], []⟩, false, false⟩
        "net" "pw").1
      = Except.error JoinError.UnexpectedWouldBlock) :=
  ⟨by decide, by decide,
    c9_would_block [] [] [] false false "net" "pw" (by decide) (by decide)⟩

/-- Claim C10: the flags are written only inside the folding step: on a
successful `join`, the flags after the call are exactly the left fold of the
folding table over the drained URC queue starting from the flags before the
call, and the returned snapshot equals those folded flags. -/
theorem c10_flags_are_fold (a : Adapter) (ssid key : String) (s : JoinState)
    (h : (a.join ssid key).1 = Except.ok s) :
    ((a.join ssid key).2.joined, (a.join ssid key).2.ip_assigned)
      = List.foldl foldStep (a.joined, a.ip_assigned) a.client.urcQueue ∧
    s.connected = (a.join ssid key).2.joined ∧
    s.ip_assigned = (a.join ssid key).2.ip_assigned := by
  rcases hm : a.set_station_mode with ⟨r1, a1⟩
  have hm1 := (set_station_mode_spec a).1
  have hm2 := (set_station_mode_spec a).2.1
  have hm3 := (set_station_mode_spec a).2.2.1
  rw [hm] at hm1 hm2 hm3
  have hm1b : a1.joined = a.joined := hm1
  have hm2b : a1.ip_assigned = a.ip_assigned := hm2
  have hm3b : a1.client.urcQueue = a.client.urcQueue := hm3
  rcases r1 with e1 | u1
  · simp [Adapter.join, hm] at h
  · rcases hc : a1.connect_access_point ssid key with ⟨r2, a2⟩
    have hc1 := (connect_access_point_flags a1 ssid key).1
    have hc2 := (connect_access_point_flags a1 ssid key).2.1
    have hc3 := (connect_access_point_flags a1 ssid key).2.2
    rw [hc] at hc1 hc2 hc3
    have hc1b : a2.joined = a1.joined := hc1
    have hc2b : a2.ip_assigned = a1.ip_assigned := hc2
    have hc3b : a2.client.urcQueue = a1.client.urcQueue := hc3
    rcases r2 with e2 | u2
    · simp [Adapter.join, hm, hc] at h
    · have hj : a.join ssid key
          = (Except.ok ⟨(a2.process_urc_messages).joined,
              (a2.process_urc_messages).ip_assigned⟩, a2.process_urc_messages) := by
        simp [Adapter.join, hm, hc]
      rw [hj] at h
      simp only [Except.ok.injEq] at h
      subst h
      rw [hj]
      simp [process_urc_messages_spec, hc1b, hc2b, hc3b, hm1b, hm2b, hm3b]

/-- Claim C10 witness: the statement applied to a fresh client with two queued
URC messages and all sends succeeding, where `join` returns the snapshot with
both flags true. -/
theorem c10_flags_are_fold_witness :
    ((Adapter.new ⟨[], [URCMessages.WifiConnected, URCMessages.ReceivedIP], []⟩).join
        "net" "pw").1 = Except.ok ⟨true, true⟩ ∧
    ((((Adapter.new ⟨[], [URCMessages.WifiConnected, URCMessages.ReceivedIP], []⟩).join
          "net" "pw").2.joined,
      ((Adapter.new ⟨[], [URCMessages.WifiConnected, URCMessages.ReceivedIP], []⟩).join
          "net" "pw").2.ip_assigned)
        = List.foldl foldStep
            ((Adapter.new ⟨[], [URCMessages.WifiConnected, URCMessages.ReceivedIP], []⟩).joined,
             (Adapter.new ⟨[], [URCMessages.WifiConnected, URCMessages.ReceivedIP], []⟩).ip_assigned)
            (Adapter.new ⟨[], [URCMessages.WifiConnected, URCMessages.ReceivedIP], []⟩).client.urcQueue ∧
      (⟨true, true⟩ : JoinState).connected
        = ((Adapter.new ⟨[], [URCMessages.WifiConnected, URCMessages.ReceivedIP], []⟩).join
            "net" "pw").2.joined ∧
      (⟨true, true⟩ : JoinState).ip_assigned
        = ((Adapter.new ⟨[], [URCMessages.WifiConnected, URCMessages.ReceivedIP], []⟩).join
            "net" "pw").2.ip_assigned) := by
  have h : ((Adapter.new ⟨[], [URCMessages.WifiConnected, URCMessages.ReceivedIP], []⟩).join
      "net" "pw").1 = Except.ok ⟨true, true⟩ := by
    simp [Adapter.join, Adapter.new, set_station_mode_default, Adapter.connect_access_point,
      Client.send, process_urc_messages_spec, foldStep,
      show ¬ 32 < "net".utf8ByteSize from by decide,
      show ¬ 63 < "pw".utf8ByteSize from by decide]
  exact ⟨h, c10_flags_are_fold _ "net" "pw" ⟨true, true⟩ h⟩
